import Mathlib

/-!
Verification of the Idea2Blog pipeline (idea2draft2.py, Draft2Blog.py,
orchestrator.py) against its natural-language specification.

Strings are modelled as lists of characters.  Python primitives used by the
source (str.find, slicing with possibly negative indices, str.strip,
str.startswith) are embedded with their exact Python semantics.  The remote
generative-model calls are modelled as an explicit function parameter from
prompt to either a completion text or a remote-call error.  Python exceptions
over mutable objects are modelled in state-passing style: every operation
returns the state as of the point the exception (if any) was raised, so the
order of mutations in the source is preserved observably.
-/

set_option maxRecDepth 100000

deriving instance DecidableEq for Except

/-- Python str.isspace character class as used by str.strip:
space, tab, newline, carriage return, vertical tab, form feed. -/
def pyIsSpace (c : Char) : Bool :=
  c == ' ' || c == '\t' || c == '\n' || c == '\r' ||
  c == Char.ofNat 11 || c == Char.ofNat 12

/-- Python str.strip: remove leading and trailing whitespace. -/
def pyStrip (s : List Char) : List Char :=
  ((s.dropWhile pyIsSpace).reverse.dropWhile pyIsSpace).reverse

/-- Index of the first occurrence of the pattern p in s (leftmost match),
or none if p does not occur in s.  This is the search underlying Python
str.find. -/
def findSub (p : List Char) : List Char → Option Nat
  | [] => if p <+: ([] : List Char) then some 0 else none
  | c :: t => if p <+: (c :: t) then some 0 else (findSub p t).map (· + 1)

/-- Python str.find: index of the first occurrence, or the sentinel -1. -/
def pyFind (hay needle : List Char) : Int :=
  match findSub needle hay with
  | some i => (i : Int)
  | none => -1

/-- Python slice s[a:b] for integer (possibly negative) indices. -/
def pySlice (s : List Char) (a b : Int) : List Char :=
  let n := s.length
  let a' : Nat := if a < 0 then (a + n).toNat else min a.toNat n
  let b' : Nat := if b < 0 then (b + n).toNat else min b.toNat n
  (s.take b').drop a'

/-- Python str.startswith. -/
def pyStartswith (s p : List Char) : Bool := decide (p <+: s)

/-- Error taxonomy of the pipeline.  Remote-call failures carry the remote
message; missing-section failures come from tag extraction
(ValueError in Draft2Blog._extract_styled_content); noContentToFinalize is
the orchestrator's ValueError in finalize_to_blog. -/
inductive PipelineError where
  | remoteFailure (msg : List Char)
  | missingSection (msg : List Char)
  | noContentToFinalize
deriving DecidableEq

/-- A remote generative model: prompt text to completion text or a
remote-call failure message.  The real system's google.generativeai calls
are this opaque capability. -/
def RemoteModel := List Char → Except (List Char) (List Char)

/-- start_tag of Draft2Blog._extract_styled_content. -/
def styled_start_tag : List Char := "<styled_draft>".data

/-- end_tag of Draft2Blog._extract_styled_content. -/
def styled_end_tag : List Char := "</styled_draft>".data

/-- Draft2Blog._extract_styled_content: locate the first occurrence of both
tags with str.find, raise ValueError if either is absent, otherwise return
the stripped slice between the end of the open tag and the start of the
close tag. -/
def extract_styled_content (response : List Char) : Except PipelineError (List Char) :=
  let start_idx := pyFind response styled_start_tag
  let end_idx := pyFind response styled_end_tag
  if start_idx = -1 ∨ end_idx = -1 then
    Except.error (PipelineError.missingSection
      ("Could not find styled_draft tags in response".data))
  else
    Except.ok (pyStrip (pySlice response (start_idx + (styled_start_tag.length : Int)) end_idx))

/-- ThoughtProcessor._parse_response's inner extract_tag_content: no
missing-tag check at all; str.find's -1 sentinel flows straight into the
index arithmetic and the slice. -/
def extract_tag_content (response tag : List Char) : List Char :=
  let start_tag := ('<' :: tag) ++ ['>']
  let end_tag := ('<' :: ('/' :: tag)) ++ ['>']
  let start_idx := pyFind response start_tag + (start_tag.length : Int)
  let end_idx := pyFind response end_tag
  pyStrip (pySlice response start_idx end_idx)

/-- The three named sections returned by ThoughtProcessor._parse_response. -/
structure ParsedSections where
  connected_narrative : List Char
  growth_points : List Char
  ai_contributions : List Char
deriving DecidableEq

/-- ThoughtProcessor._parse_response. -/
def parse_response (response : List Char) : ParsedSections :=
  { connected_narrative := extract_tag_content response ("connected_narrative".data)
    growth_points := extract_tag_content response ("growth_points".data)
    ai_contributions := extract_tag_content response ("ai_contributions".data) }

/-- The part of ThoughtProcessor._get_processing_prompt's template before the
brain_dump substitution slot. -/
def processing_prompt_prefix : List Char :=
  ("You are an expert analyst who specializes in strengthening and expanding arguments. Your task is to take a brain dump of ideas and:\n" ++
   "1. Identify the core arguments\n" ++
   "2. Steelman each argument to its strongest form\n" ++
   "3. Add supporting evidence and reasoning\n" ++
   "4. Expand the implications\n" ++
   "5. Find growth directions\n\n" ++
   "Additional Guideline:\n" ++
   "1. Do not say anything like \"as mentioned in the brain dump\" or anything like that.\n\n" ++
   "Brain dump to analyze:\n<brain_dump>\n").data

/-- The part of ThoughtProcessor._get_processing_prompt's template after the
brain_dump substitution slot. -/
def processing_prompt_suffix : List Char :=
  ("\n</brain_dump>\n\n" ++
   "Provide your analysis in these sections:\n\n" ++
   "<connected_narrative>\n" ++
   "Build the strongest possible case for the ideas presented:\n" ++
   "- Take each core argument and strengthen it\n" ++
   "- Add any supporting evidence and examples that might not be mentioned in the original\n" ++
   "- Connect ideas in ways that reinforce the main thesis\n" ++
   "- Anticipate and address potential counterarguments\n" ++
   "- Explore implications that strengthen the overall case\n" ++
   "- Use clear reasoning chains to show how conclusions follow\n" ++
   "- Structure the narrative to build a compelling case\n" ++
   "</connected_narrative>\n\n" ++
   "<growth_points>\n" ++
   "Identify promising directions to expand the idea:\n" ++
   "- What adjacent areas could this thesis apply to?\n" ++
   "- What bigger implications haven\x27t been explored?\n" ++
   "- What industries/domains could be impacted?\n" ++
   "- What second-order effects might emerge?\n" ++
   "- What research areas could strengthen the case?\n" ++
   "- What real-world applications could test these ideas?\n" ++
   "- What related theses could be developed?\n\n" ++
   "For each growth point:\n" ++
   "1. Explain why it\x27s promising\n" ++
   "2. Outline initial evidence/reasoning\n" ++
   "3. Suggest concrete next steps\n" ++
   "4. Note potential impact\n" ++
   "</growth_points>\n\n" ++
   "<ai_contributions>\n" ++
   "Explain how you built upon the original ideas:\n" ++
   "- What evidence/examples did you add?\n" ++
   "- What connections did you draw?\n" ++
   "- What implications did you identify?\n" ++
   "- What counterarguments did you address?\n" ++
   "- What reasoning chains did you construct?\n" ++
   "- What growth areas did you spot?\n\n" ++
   "Be specific about your contributions so they can be evaluated and built upon.\n" ++
   "</ai_contributions>\n" ++
   "Be SUPER-CAREFUL about putting the different sections clearly into their own XML tags\n\n").data

/-- ThoughtProcessor._get_processing_prompt: the fixed template with the
brain dump substituted into its slot. -/
def processing_prompt (brain_dump : List Char) : List Char :=
  processing_prompt_prefix ++ brain_dump ++ processing_prompt_suffix

/-- ThoughtProcessor._get_refinement_prompt, first literal segment. -/
def refinement_prompt_part1 : List Char :=
  ("You are an expert writer and analyst continuing to develop a narrative about an important idea. Your task is to evolve the current narrative by incorporating new insights or addressing specific aspects while maintaining a cohesive, standalone piece.\n\n" ++
   "Current narrative state:\n<current_narrative>\n").data

/-- ThoughtProcessor._get_refinement_prompt, segment between the current
narrative and the refinement request. -/
def refinement_prompt_part2 : List Char :=
  ("\n</current_narrative>\n\n" ++
   "Focus area to develop:\n<refinement_focus>\n").data

/-- ThoughtProcessor._get_refinement_prompt, segment after the refinement
request. -/
def refinement_prompt_part3 : List Char :=
  ("\n</refinement_focus>\n\n" ++
   "Approach this as an organic development of the ideas. The narrative should:\n" ++
   "- Flow as a single, cohesive piece\n" ++
   "- Naturally incorporate the requested developments\n" ++
   "- Stand on its own as a complete narrative\n" ++
   "- Build upon existing points without referencing them as \"previous\" or \"earlier\"\n" ++
   "- Weave new insights seamlessly into the existing argument structure\n\n" ++
   "<connected_narrative>\n" ++
   "[Evolved narrative that naturally incorporates the refinements]\n" ++
   "</connected_narrative>\n\n" ++
   "<growth_points>\n" ++
   "[Updated opportunities for development based on this evolution:]\n" ++
   "- New areas opened by these developments\n" ++
   "- Deepened aspects that invite further exploration\n" ++
   "- Emerging connections to investigate\n" ++
   "</growth_points>\n\n" ++
   "<ai_contributions>\n" ++
   "[How the narrative evolved:]\n" ++
   "- Deepened aspects\n" ++
   "- New connections drawn\n" ++
   "- Strengthened arguments\n" ++
   "- Added context and support\n" ++
   "</ai_contributions>\n" ++
   "Be SUPER-CAREFUL about putting the different sections clearly into their own XML tags\n").data

/-- ThoughtProcessor._get_refinement_prompt: the f-string with the current
narrative and the refinement request substituted. -/
def refinement_prompt (current_narrative refinement_request : List Char) : List Char :=
  ((refinement_prompt_part1 ++ current_narrative) ++ refinement_prompt_part2 ++
    refinement_request) ++ refinement_prompt_part3

/-- The interaction entry string built by MemoryObject.add_interaction:
timestamp attribute plus a k-indexed response element around the raw
response. -/
def formatInteraction (timestamp : List Char) (k : Nat) (response : List Char) : List Char :=
  ("\n<interaction timestamp=\"".data ++ timestamp) ++ "\">\n    <response".data ++
    (Nat.repr k).data ++ ">\n    ".data ++ response ++ "\n    </response".data ++
    (Nat.repr k).data ++ ">\n</interaction>\n".data

/-- MemoryObject (idea2draft2.py): an ordered list of interaction strings. -/
structure MemoryObject where
  interactions : List (List Char)
deriving DecidableEq

/-- MemoryObject.add_interaction: append the formatted entry; the response
index k is the new length of the log. -/
def add_interaction (m : MemoryObject) (timestamp response : List Char) : MemoryObject :=
  ⟨m.interactions ++ [formatInteraction timestamp (m.interactions.length + 1) response]⟩

/-- MemoryObject.get_memory_string. -/
def get_memory_string (m : MemoryObject) : List Char :=
  List.intercalate ("\n".data) m.interactions

/-- ThoughtProcessor's mutable fields (idea2draft2.py). -/
structure ThoughtProcessor where
  memory : MemoryObject
  current_narrative : List Char
  current_growth_points : List Char
deriving DecidableEq

/-- Fresh ThoughtProcessor as built by its constructor: empty memory, empty
current narrative and growth points. -/
def ThoughtProcessor.init : ThoughtProcessor := ⟨⟨[]⟩, [], []⟩

/-- ThoughtProcessor.process_brain_dump in state-passing form: remote call,
then memory append, then parse, then overwrite of the two retained fields.
A remote failure propagates before any mutation. -/
def process_brain_dump (model : RemoteModel) (now : List Char) (tp : ThoughtProcessor)
    (brain_dump : List Char) : ThoughtProcessor × Except PipelineError ParsedSections :=
  match model (processing_prompt brain_dump) with
  | .error msg => (tp, .error (.remoteFailure msg))
  | .ok response =>
      let tp1 : ThoughtProcessor := { tp with memory := add_interaction tp.memory now response }
      let parsed := parse_response response
      ({ tp1 with current_narrative := parsed.connected_narrative
                  current_growth_points := parsed.growth_points }, .ok parsed)

/-- ThoughtProcessor.refine_narrative in state-passing form: identical shape
to process_brain_dump but the prompt embeds the current narrative and the
refinement request.  There is no precondition check on the current
narrative. -/
def refine_narrative (model : RemoteModel) (now : List Char) (tp : ThoughtProcessor)
    (refinement_request : List Char) : ThoughtProcessor × Except PipelineError ParsedSections :=
  match model (refinement_prompt tp.current_narrative refinement_request) with
  | .error msg => (tp, .error (.remoteFailure msg))
  | .ok response =>
      let tp1 : ThoughtProcessor := { tp with memory := add_interaction tp.memory now response }
      let parsed := parse_response response
      ({ tp1 with current_narrative := parsed.connected_narrative
                  current_growth_points := parsed.growth_points }, .ok parsed)

/-- One entry of BlogMemory.drafts (Draft2Blog.py). -/
structure BlogEntry where
  timestamp : List Char
  original_draft : List Char
  styled_draft : List Char
deriving DecidableEq

/-- BlogMemory (Draft2Blog.py): the ordered list of draft conversions. -/
structure BlogMemory where
  drafts : List BlogEntry
deriving DecidableEq

/-- BlogMemory.add_draft: append a timestamped entry. -/
def add_draft (m : BlogMemory) (timestamp original_draft styled_draft : List Char) : BlogMemory :=
  ⟨m.drafts ++ [⟨timestamp, original_draft, styled_draft⟩]⟩

/-- BlogMemory.get_history. -/
def get_history (m : BlogMemory) : List BlogEntry := m.drafts

/-- A JSON value, as far as the exports of this system need: strings,
arrays and objects with ordered string keys. -/
inductive JsonVal where
  | str (s : List Char)
  | arr (xs : List JsonVal)
  | obj (fields : List ((List Char) × JsonVal))

/-- The JSON object serialized for one BlogMemory entry. -/
def entry_json (e : BlogEntry) : JsonVal :=
  .obj [("timestamp".data, .str e.timestamp),
        ("original_draft".data, .str e.original_draft),
        ("styled_draft".data, .str e.styled_draft)]

/-- BlogMemory.export_memory: the JSON document written to disk, an object
with the single top-level key drafts holding the entry array.  The file I/O
itself is an external effect and is not modelled. -/
def export_memory (m : BlogMemory) : JsonVal :=
  .obj [("drafts".data, .arr (m.drafts.map entry_json))]

/-- The tag-wrapping step at the top of Draft2Blog.convert_draft: wrap the
draft in draft tags unless its stripped form already starts with the open
tag. -/
def wrap_draft (draft : List Char) : List Char :=
  if pyStartswith (pyStrip draft) ("<draft>".data) then draft
  else ("<draft>".data ++ draft) ++ "</draft>".data

/-- Draft2Blog's mutable state.  The chat conversation context lives inside
the external generative-model session object and is part of the opaque
remote capability here; the in-process state this file reasons about is the
BlogMemory. -/
structure Draft2Blog where
  memory : BlogMemory
deriving DecidableEq

/-- Fresh Draft2Blog as built by its constructor: empty memory. -/
def Draft2Blog.init : Draft2Blog := ⟨⟨[]⟩⟩

/-- Draft2Blog.convert_draft in state-passing form: wrap, send to the chat
model, extract the styled section, and only then record the (wrapped) draft
and the styled content in memory.  Both a remote failure and an extraction
failure abort before the memory append. -/
def convert_draft (model : RemoteModel) (now : List Char) (d : Draft2Blog)
    (draft : List Char) : Draft2Blog × Except PipelineError (List Char) :=
  let wrapped := wrap_draft draft
  match model wrapped with
  | .error msg => (d, .error (.remoteFailure msg))
  | .ok response =>
      match extract_styled_content response with
      | .error e => (d, .error e)
      | .ok styled =>
          ({ d with memory := add_draft d.memory now wrapped styled }, .ok styled)

/-- Orchestrator state (orchestrator.py): the two processors plus the single
current_state field, absent until a process or refine call succeeds. -/
structure Orchestrator where
  thought_processor : ThoughtProcessor
  blog_converter : Draft2Blog
  current_state : Option ParsedSections
deriving DecidableEq

/-- Orchestrator.__init__: fresh processors, current_state = None. -/
def Orchestrator.init : Orchestrator := ⟨ThoughtProcessor.init, Draft2Blog.init, none⟩

/-- Orchestrator.process_initial_idea: delegate to process_brain_dump and,
only on success, overwrite current_state with the result. -/
def Orchestrator.process_initial_idea (model : RemoteModel) (now : List Char)
    (o : Orchestrator) (idea : List Char) : Orchestrator × Except PipelineError ParsedSections :=
  match process_brain_dump model now o.thought_processor idea with
  | (tp, .error e) => ({ o with thought_processor := tp }, .error e)
  | (tp, .ok result) =>
      ({ o with thought_processor := tp, current_state := some result }, .ok result)

/-- Orchestrator.refine_content: delegate to refine_narrative and, only on
success, overwrite current_state.  There is no state-precondition check. -/
def Orchestrator.refine_content (model : RemoteModel) (now : List Char)
    (o : Orchestrator) (refinement : List Char) :
    Orchestrator × Except PipelineError ParsedSections :=
  match refine_narrative model now o.thought_processor refinement with
  | (tp, .error e) => ({ o with thought_processor := tp }, .error e)
  | (tp, .ok result) =>
      ({ o with thought_processor := tp, current_state := some result }, .ok result)

/-- Orchestrator.finalize_to_blog: raise the no-content error when
current_state is absent (None is the only falsy value current_state can
hold, since a ParsedSections dictionary is never falsy); otherwise delegate
the stored connected_narrative to convert_draft. -/
def Orchestrator.finalize_to_blog (model : RemoteModel) (now : List Char)
    (o : Orchestrator) : Orchestrator × Except PipelineError (List Char) :=
  match o.current_state with
  | none => (o, .error .noContentToFinalize)
  | some st =>
      match convert_draft model now o.blog_converter st.connected_narrative with
      | (d, .error e) => ({ o with blog_converter := d }, .error e)
      | (d, .ok styled) => ({ o with blog_converter := d }, .ok styled)

/-- Success test for an operation outcome. -/
def exOk {ε α : Type} : Except ε α → Bool
  | .ok _ => true
  | .error _ => false

/-- One request against the orchestrator, as issued by the three relay
endpoints. -/
inductive OrchOp where
  | processOp (idea : List Char)
  | refineOp (req : List Char)
  | finalizeOp

/-- Whether an operation is one of the two that set current_state on
success. -/
def isContentOp : OrchOp → Bool
  | .processOp _ => true
  | .refineOp _ => true
  | .finalizeOp => false

/-- Run one operation; the relay catches every failure, so the orchestrator
survives with the state as of the failure point.  Returns the new
orchestrator and whether the operation succeeded. -/
def runOp (mThought mStyle : RemoteModel) (now : List Char) (o : Orchestrator) :
    OrchOp → Orchestrator × Bool
  | .processOp idea =>
      let r := Orchestrator.process_initial_idea mThought now o idea
      (r.1, exOk r.2)
  | .refineOp req =>
      let r := Orchestrator.refine_content mThought now o req
      (r.1, exOk r.2)
  | .finalizeOp =>
      let r := Orchestrator.finalize_to_blog mStyle now o
      (r.1, exOk r.2)

/-- Run a sequence of operations, accumulating whether any process or
refine call has succeeded so far. -/
def runTrace (mThought mStyle : RemoteModel) (now : List Char) :
    Orchestrator → Bool → List OrchOp → Orchestrator × Bool
  | o, flag, [] => (o, flag)
  | o, flag, op :: rest =>
      let r := runOp mThought mStyle now o op
      runTrace mThought mStyle now r.1 (flag || (r.2 && isContentOp op)) rest

theorem findSub_of_prefix {p s : List Char} (h : p <+: s) : findSub p s = some 0 := by
  cases s with
  | nil => simp [findSub, h]
  | cons c t => simp [findSub, h]

theorem findSub_cons_neg {p : List Char} {c : Char} {t : List Char}
    (h : ¬ p <+: (c :: t)) : findSub p (c :: t) = (findSub p t).map (· + 1) := by
  simp [findSub, h]

theorem findSub_append {p a r : List Char} (hp : p <+: r)
    (h : ∀ j, j < a.length → ¬ p <+: (a ++ r).drop j) :
    findSub p (a ++ r) = some a.length := by
  induction a with
  | nil => simpa using findSub_of_prefix hp
  | cons c a' ih =>
      have h0 : ¬ p <+: (c :: (a' ++ r)) := by simpa using h 0 (by simp)
      rw [List.cons_append, findSub_cons_neg h0,
        ih (fun j hj => by simpa using h (j + 1) (by simpa using Nat.succ_lt_succ hj))]
      simp

theorem findSub_eq_none {p s : List Char} (h : ∀ j, ¬ p <+: s.drop j) :
    findSub p s = none := by
  induction s with
  | nil =>
      have h0 : ¬ p <+: ([] : List Char) := by simpa using h 0
      simp [findSub, h0]
  | cons c t ih =>
      rw [findSub_cons_neg (by simpa using h 0),
        ih (fun j => by simpa using h (j + 1))]
      rfl

theorem not_prefix_drop_of_not_occurring {p s : List Char} (h : ¬ p <:+: s) (j : Nat) :
    ¬ p <+: s.drop j :=
  fun hp => h (hp.isInfix.trans (List.drop_suffix j s).isInfix)

theorem pySlice_append (u v w : List Char) :
    pySlice (u ++ (v ++ w)) ((u.length : Int)) (((u.length + v.length : Nat) : Int)) = v := by
  simp only [pySlice]
  have hna : ¬ ((u.length : Int) < 0) := by omega
  have hnb : ¬ (((u.length + v.length : Nat) : Int) < 0) := by omega
  rw [if_neg hna, if_neg hnb, Int.toNat_natCast, Int.toNat_natCast]
  have hlen : u.length ≤ (u ++ (v ++ w)).length := by simp
  have hlen2 : u.length + v.length ≤ (u ++ (v ++ w)).length := by simp
  rw [min_eq_left hlen, min_eq_left hlen2,
    show u ++ (v ++ w) = (u ++ v) ++ w from (List.append_assoc u v w).symm,
    List.take_left' (by simp), List.drop_left]

theorem draft_prefix_strip {l : List Char} (h : "<draft>".data <+: l) :
    "<draft>".data <+: pyStrip l := by
  obtain ⟨t, rfl⟩ := h
  unfold pyStrip
  have h1 : (("<draft>".data ++ t).dropWhile pyIsSpace) = "<draft>".data ++ t := by
    rw [show "<draft>".data ++ t = '<' :: ("draft>".data ++ t) from rfl,
      List.dropWhile_cons]
    simp [pyIsSpace]
  rw [h1, List.reverse_append, List.dropWhile_append]
  by_cases hc : ((("<draft>".data.reverse).dropWhile pyIsSpace)).isEmpty
  · exact absurd hc (by decide)
  · by_cases ht : ((t.reverse.dropWhile pyIsSpace)).isEmpty
    · rw [if_pos ht,
        show (("<draft>".data.reverse).dropWhile pyIsSpace) = "<draft>".data.reverse
          from by decide,
        List.reverse_reverse]
    · rw [if_neg ht, List.reverse_append, List.reverse_reverse]
      exact List.prefix_append _ _

theorem wrap_draft_eq_of_strip {l : List Char} (h : "<draft>".data <+: pyStrip l) :
    wrap_draft l = l := by
  unfold wrap_draft
  rw [if_pos (by simpa [pyStartswith] using h)]

theorem wrap_draft_eq_of_unwrapped {X : List Char} (h : ¬ "<draft>".data <+: pyStrip X) :
    wrap_draft X = ("<draft>".data ++ X) ++ "</draft>".data := by
  unfold wrap_draft
  rw [if_neg (by simpa [pyStartswith] using h)]

/-- C4: for every string of the form a ++ open ++ X ++ close ++ b in which
the leading open tag written there is the first occurrence of the open tag
and the close tag written there is the first occurrence of the close tag
(no tag collisions in a or X), the extractor returns trim(X); and for every
string lacking either tag, extraction fails with the missing-section
error. -/
theorem c4_tag_extractor (a X b s : List Char)
    (hopen : ∀ j, j < a.length →
      ¬ styled_start_tag <+:
        ((a ++ (styled_start_tag ++ (X ++ (styled_end_tag ++ b)))).drop j))
    (hclose : ∀ j, j < a.length + styled_start_tag.length + X.length →
      ¬ styled_end_tag <+:
        ((a ++ (styled_start_tag ++ (X ++ (styled_end_tag ++ b)))).drop j))
    (hmiss : ¬ styled_start_tag <:+: s ∨ ¬ styled_end_tag <:+: s) :
    extract_styled_content (a ++ (styled_start_tag ++ (X ++ (styled_end_tag ++ b)))) =
      Except.ok (pyStrip X) ∧
    extract_styled_content s = Except.error (PipelineError.missingSection
      ("Could not find styled_draft tags in response".data)) := by
  constructor
  · have f1 : findSub styled_start_tag
        (a ++ (styled_start_tag ++ (X ++ (styled_end_tag ++ b)))) = some a.length :=
      findSub_append (List.prefix_append _ _) hopen
    have hs0 : a ++ (styled_start_tag ++ (X ++ (styled_end_tag ++ b))) =
        (a ++ (styled_start_tag ++ X)) ++ (styled_end_tag ++ b) := by
      simp [List.append_assoc]
    have f2 : findSub styled_end_tag
        (a ++ (styled_start_tag ++ (X ++ (styled_end_tag ++ b)))) =
        some ((a ++ (styled_start_tag ++ X)).length) := by
      rw [hs0]
      refine findSub_append (List.prefix_append _ _) (fun j hj => ?_)
      rw [← hs0]
      exact hclose j (by simp at hj ⊢; omega)
    simp only [extract_styled_content, pyFind, f1, f2]
    rw [if_neg (by omega)]
    have harg : ((a.length : Int) + (styled_start_tag.length : Int)) =
        (((a ++ styled_start_tag).length : Nat) : Int) := by simp
    have harg2 : ((((a ++ (styled_start_tag ++ X)).length) : Nat) : Int) =
        ((((a ++ styled_start_tag).length + X.length) : Nat) : Int) := by simp; omega
    rw [harg, harg2,
      show a ++ (styled_start_tag ++ (X ++ (styled_end_tag ++ b))) =
        (a ++ styled_start_tag) ++ (X ++ (styled_end_tag ++ b)) from by
          simp [List.append_assoc],
      pySlice_append]
  · have hnone : findSub styled_start_tag s = none ∨ findSub styled_end_tag s = none := by
      rcases hmiss with h | h
      · exact Or.inl (findSub_eq_none (not_prefix_drop_of_not_occurring h))
      · exact Or.inr (findSub_eq_none (not_prefix_drop_of_not_occurring h))
    simp only [extract_styled_content, pyFind]
    rcases hnone with h | h
    · rw [h]
      rw [if_pos (Or.inl rfl)]
    · rw [h]
      cases findSub styled_start_tag s with
      | none => rw [if_pos (Or.inl rfl)]
      | some i => rw [if_pos (Or.inr rfl)]

/-- Witness for c4_tag_extractor at concrete strings. -/
theorem c4_tag_extractor_witness :
    extract_styled_content
      (("ab".data) ++ (styled_start_tag ++ ((" hi ".data) ++ (styled_end_tag ++ ("cd".data))))) =
      Except.ok (pyStrip (" hi ".data)) ∧
    extract_styled_content ("zz".data) = Except.error (PipelineError.missingSection
      ("Could not find styled_draft tags in response".data)) :=
  c4_tag_extractor ("ab".data) (" hi ".data) ("cd".data) ("zz".data)
    (by decide) (by decide) (by decide)

/-- C5 counterexample: for the inner text X = the already-tagged string
"<draft>a</draft>", the string sent to the remote call for the wrapped input
differs from the one sent for the unwrapped inner text: the wrapped input is
passed through as a double-wrapped draft, while X alone is passed through
unchanged (its stripped form already starts with the open tag, so convert
never wraps it). -/
theorem c5_wrap_counterexample :
    wrap_draft (("<draft>".data ++ ("<draft>a</draft>".data)) ++ "</draft>".data) ≠
      wrap_draft ("<draft>a</draft>".data) := by decide

/-- C5 amended: the wrapping agreement holds for every inner text X whose
stripped form does not itself start with the open draft tag; and any input
whose stripped form starts with the open tag (in particular any input
literally starting with it) is passed to the remote call unchanged. -/
theorem c5_wrap_idempotent (X input : List Char)
    (hX : ¬ "<draft>".data <+: pyStrip X)
    (hin : "<draft>".data <+: input) :
    wrap_draft (("<draft>".data ++ X) ++ "</draft>".data) = wrap_draft X ∧
    wrap_draft input = input := by
  constructor
  · rw [wrap_draft_eq_of_strip
      (draft_prefix_strip ((List.prefix_append _ X).trans (List.prefix_append _ _))),
      wrap_draft_eq_of_unwrapped hX]
  · exact wrap_draft_eq_of_strip (draft_prefix_strip hin)

/-- Witness for c5_wrap_idempotent at X = "hi", input = "<draft>z". -/
theorem c5_wrap_idempotent_witness :
    wrap_draft (("<draft>".data ++ ("hi".data)) ++ "</draft>".data) =
      wrap_draft ("hi".data) ∧
    wrap_draft ("<draft>z".data) = "<draft>z".data :=
  c5_wrap_idempotent ("hi".data) ("<draft>z".data) (by decide) (by decide)

/-- A record operation as seen by Session Memory: timestamp, original draft
and styled draft of one successful conversion. -/
def mk_entry : List Char × List Char × List Char → BlogEntry
  | (ts, od, sd) => ⟨ts, od, sd⟩

/-- Fold a sequence of successful recorded operations into the memory. -/
def record_all (m : BlogMemory) : List (List Char × List Char × List Char) → BlogMemory
  | [] => m
  | (ts, od, sd) :: rest => record_all (add_draft m ts od sd) rest

theorem record_all_drafts (ops : List (List Char × List Char × List Char)) :
    ∀ m : BlogMemory, (record_all m ops).drafts = m.drafts ++ ops.map mk_entry := by
  induction ops with
  | nil => intro m; simp [record_all]
  | cons hd tl ih =>
      intro m
      obtain ⟨ts, od, sd⟩ := hd
      simp [record_all, ih, add_draft, mk_entry]

/-- C6: Session Memory is append-only.  After n recorded operations the
history has length n, lists exactly the recorded entries in call order
(most-recent-last), each single record appends one entry and leaves every
prior entry in place unchanged, and the export JSON document's top-level
drafts array lists the same n entries with matching fields. -/
theorem c6_session_memory (ops : List (List Char × List Char × List Char)) :
    get_history (record_all ⟨[]⟩ ops) = ops.map mk_entry ∧
    (get_history (record_all ⟨[]⟩ ops)).length = ops.length ∧
    (∀ (m : BlogMemory) (ts od sd : List Char),
      get_history (add_draft m ts od sd) = get_history m ++ [⟨ts, od, sd⟩]) ∧
    export_memory (record_all ⟨[]⟩ ops) =
      JsonVal.obj [("drafts".data, JsonVal.arr ((ops.map mk_entry).map entry_json))] := by
  refine ⟨?_, ?_, ?_, ?_⟩
  · simp [get_history, record_all_drafts]
  · simp [get_history, record_all_drafts]
  · intro m ts od sd; simp [get_history, add_draft]
  · simp [export_memory, record_all_drafts]

/-- C7: processing is a full overwrite.  Whatever the first successful
process call stored, a second successful process call leaves the
orchestrator state, the current narrative and the current growth points
determined exclusively by the second call's parsed sections. -/
theorem c7_process_overwrites (mA mB : RemoteModel) (tsA tsB ideaA ideaB : List Char)
    (o o1 o2 : Orchestrator) (pA pB : ParsedSections)
    (h1 : Orchestrator.process_initial_idea mA tsA o ideaA = (o1, Except.ok pA))
    (h2 : Orchestrator.process_initial_idea mB tsB o1 ideaB = (o2, Except.ok pB)) :
    o2.current_state = some pB ∧
    o2.thought_processor.current_narrative = pB.connected_narrative ∧
    o2.thought_processor.current_growth_points = pB.growth_points := by
  unfold Orchestrator.process_initial_idea process_brain_dump at h2
  cases hm : mB (processing_prompt ideaB) with
  | error msg => rw [hm] at h2; simp at h2
  | ok response =>
      rw [hm] at h2
      simp only [Prod.mk.injEq] at h2
      obtain ⟨ho, hp⟩ := h2
      have hp' : parse_response response = pB := by
        exact Except.ok.inj hp
      subst hp'
      rw [← ho]
      exact ⟨rfl, rfl, rfl⟩

/-- A remote model stub that returns the same completion for every
prompt. -/
def stub_ok (r : List Char) : RemoteModel := fun _ => Except.ok r

/-- A remote model stub that fails every call. -/
def stub_err (msg : List Char) : RemoteModel := fun _ => Except.error msg

/-- A stub completion carrying all three well-formed sections. -/
def good_response : List Char :=
  ("<connected_narrative>N</connected_narrative><growth_points>G</growth_points><ai_contributions>C</ai_contributions>").data

/-- A second stub completion with different section contents. -/
def other_response : List Char :=
  ("<connected_narrative>N1</connected_narrative><growth_points>G1</growth_points><ai_contributions>C1</ai_contributions>").data

/-- A stub styled completion. -/
def styled_response : List Char := "<styled_draft>S</styled_draft>".data

theorem process_eq_error {m : RemoteModel} {idea msg : List Char} (now : List Char)
    (o : Orchestrator) (hm : m (processing_prompt idea) = Except.error msg) :
    Orchestrator.process_initial_idea m now o idea =
      (o, Except.error (PipelineError.remoteFailure msg)) := by
  simp [Orchestrator.process_initial_idea, process_brain_dump, hm]

theorem process_eq_ok {m : RemoteModel} {idea response : List Char} (now : List Char)
    (o : Orchestrator) (hm : m (processing_prompt idea) = Except.ok response) :
    Orchestrator.process_initial_idea m now o idea =
      ({ o with
          thought_processor :=
            ⟨add_interaction o.thought_processor.memory now response,
             (parse_response response).connected_narrative,
             (parse_response response).growth_points⟩,
          current_state := some (parse_response response) },
        Except.ok (parse_response response)) := by
  simp [Orchestrator.process_initial_idea, process_brain_dump, hm]

theorem refine_eq_error {m : RemoteModel} {req msg : List Char} (now : List Char)
    (o : Orchestrator)
    (hm : m (refinement_prompt o.thought_processor.current_narrative req) =
      Except.error msg) :
    Orchestrator.refine_content m now o req =
      (o, Except.error (PipelineError.remoteFailure msg)) := by
  simp [Orchestrator.refine_content, refine_narrative, hm]

theorem refine_eq_ok {m : RemoteModel} {req response : List Char} (now : List Char)
    (o : Orchestrator)
    (hm : m (refinement_prompt o.thought_processor.current_narrative req) =
      Except.ok response) :
    Orchestrator.refine_content m now o req =
      ({ o with
          thought_processor :=
            ⟨add_interaction o.thought_processor.memory now response,
             (parse_response response).connected_narrative,
             (parse_response response).growth_points⟩,
          current_state := some (parse_response response) },
        Except.ok (parse_response response)) := by
  simp [Orchestrator.refine_content, refine_narrative, hm]

theorem extract_cases (r : List Char) :
    extract_styled_content r = Except.error (PipelineError.missingSection
      ("Could not find styled_draft tags in response".data)) ∨
    ∃ styled, extract_styled_content r = Except.ok styled := by
  simp only [extract_styled_content]
  by_cases hif : pyFind r styled_start_tag = -1 ∨ pyFind r styled_end_tag = -1
  · exact Or.inl (by rw [if_pos hif])
  · exact Or.inr ⟨_, by rw [if_neg hif]⟩

theorem convert_eq_model_error {m : RemoteModel} {draft msg : List Char} (now : List Char)
    (d : Draft2Blog) (hm : m (wrap_draft draft) = Except.error msg) :
    convert_draft m now d draft = (d, Except.error (PipelineError.remoteFailure msg)) := by
  simp [convert_draft, hm]

theorem convert_eq_extract_error {m : RemoteModel} {draft response : List Char}
    {e : PipelineError} (now : List Char) (d : Draft2Blog)
    (hm : m (wrap_draft draft) = Except.ok response)
    (hx : extract_styled_content response = Except.error e) :
    convert_draft m now d draft = (d, Except.error e) := by
  simp [convert_draft, hm, hx]

theorem convert_eq_ok {m : RemoteModel} {draft response styled : List Char}
    (now : List Char) (d : Draft2Blog)
    (hm : m (wrap_draft draft) = Except.ok response)
    (hx : extract_styled_content response = Except.ok styled) :
    convert_draft m now d draft =
      ({ d with memory := add_draft d.memory now (wrap_draft draft) styled },
        Except.ok styled) := by
  simp [convert_draft, hm, hx]

theorem finalize_eq_none {o : Orchestrator} (m : RemoteModel) (now : List Char)
    (hcs : o.current_state = none) :
    Orchestrator.finalize_to_blog m now o =
      (o, Except.error PipelineError.noContentToFinalize) := by
  simp [Orchestrator.finalize_to_blog, hcs]

theorem finalize_eq_some {o : Orchestrator} {st : ParsedSections} (m : RemoteModel)
    (now : List Char) (hcs : o.current_state = some st) :
    Orchestrator.finalize_to_blog m now o =
      ({ o with blog_converter :=
          (convert_draft m now o.blog_converter st.connected_narrative).1 },
        (convert_draft m now o.blog_converter st.connected_narrative).2) := by
  simp only [Orchestrator.finalize_to_blog, hcs]
  cases hc : convert_draft m now o.blog_converter st.connected_narrative with
  | mk dd r => cases r <;> simp [hc]

theorem convert_draft_no_noContent (m : RemoteModel) (now draft : List Char)
    (d : Draft2Blog) :
    (convert_draft m now d draft).2 ≠ Except.error PipelineError.noContentToFinalize := by
  cases hm : m (wrap_draft draft) with
  | error msg => rw [convert_eq_model_error now d hm]; simp
  | ok response =>
      rcases extract_cases response with hx | ⟨styled, hx⟩
      · rw [convert_eq_extract_error now d hm hx]; simp
      · rw [convert_eq_ok now d hm hx]; simp

theorem finalize_noContent_iff (m : RemoteModel) (now : List Char) (o : Orchestrator) :
    (Orchestrator.finalize_to_blog m now o).2 =
        Except.error PipelineError.noContentToFinalize ↔
      o.current_state = none := by
  cases hcs : o.current_state with
  | none => rw [finalize_eq_none m now hcs]; simp
  | some st =>
      rw [finalize_eq_some m now hcs]
      simp only [reduceCtorEq, iff_false]
      exact convert_draft_no_noContent m now st.connected_narrative o.blog_converter

theorem finalize_state_eq (m : RemoteModel) (now : List Char) (o : Orchestrator) :
    (Orchestrator.finalize_to_blog m now o).1.current_state = o.current_state := by
  cases hcs : o.current_state with
  | none => rw [finalize_eq_none m now hcs, hcs]
  | some st => rw [finalize_eq_some m now hcs, hcs]

theorem runTrace_flag_iff (mT mS : RemoteModel) (now : List Char) (ops : List OrchOp) :
    ∀ (o : Orchestrator) (flag : Bool),
      (o.current_state = none ↔ flag = false) →
      ((runTrace mT mS now o flag ops).1.current_state = none ↔
        (runTrace mT mS now o flag ops).2 = false) := by
  induction ops with
  | nil => intro o flag h; simpa [runTrace] using h
  | cons op rest ih =>
      intro o flag h
      rw [show runTrace mT mS now o flag (op :: rest) =
        runTrace mT mS now (runOp mT mS now o op).1
          (flag || ((runOp mT mS now o op).2 && isContentOp op)) rest from rfl]
      apply ih
      cases op with
      | processOp idea =>
          cases hm : mT (processing_prompt idea) with
          | error msg => simp [runOp, process_eq_error now o hm, exOk, isContentOp, h]
          | ok response => simp [runOp, process_eq_ok now o hm, exOk, isContentOp]
      | refineOp req =>
          cases hm : mT (refinement_prompt o.thought_processor.current_narrative req) with
          | error msg => simp [runOp, refine_eq_error now o hm, exOk, isContentOp, h]
          | ok response => simp [runOp, refine_eq_ok now o hm, exOk, isContentOp]
      | finalizeOp =>
          simp [runOp, isContentOp, finalize_state_eq, h]
/-- Whether a response carries both the open and the close tag of the named
section. -/
def has_tag_pair (r tag : List Char) : Prop :=
  (('<' :: tag) ++ ['>']) <:+: r ∧ (('<' :: ('/' :: tag)) ++ ['>']) <:+: r

instance (r tag : List Char) : Decidable (has_tag_pair r tag) := by
  unfold has_tag_pair; infer_instance

/-- C1 counterexample: a remote stub returning the tagless text "hello"
does NOT make process_initial_idea fail: the call returns ok with three
empty sections and the orchestrator state is set to them, so the state does
not remain EMPTY.  ThoughtProcessor._parse_response never checks str.find's
-1 sentinel, so no missing-section error exists on this path. -/
theorem c1_counterexample :
    (Orchestrator.process_initial_idea (stub_ok ("hello".data)) ("t0".data)
        Orchestrator.init ("idea".data)).2 = Except.ok ⟨[], [], []⟩ ∧
    (Orchestrator.process_initial_idea (stub_ok ("hello".data)) ("t0".data)
        Orchestrator.init ("idea".data)).1.current_state = some ⟨[], [], []⟩ := by
  exact ⟨by decide, by decide⟩

/-- C1 amended: for every remote stub response lacking at least one of the
three required tag pairs, process_initial_idea still succeeds: it returns
the sentinel-derived sections computed by _parse_response and overwrites
current_state with them (the state does not remain EMPTY and no
missing-section error is raised). -/
theorem c1_malformed_response_still_succeeds (r now idea : List Char) (o : Orchestrator)
    (h : ¬ (has_tag_pair r ("connected_narrative".data) ∧
            has_tag_pair r ("growth_points".data) ∧
            has_tag_pair r ("ai_contributions".data))) :
    Orchestrator.process_initial_idea (stub_ok r) now o idea =
      ({ o with
          thought_processor :=
            ⟨add_interaction o.thought_processor.memory now r,
             (parse_response r).connected_narrative,
             (parse_response r).growth_points⟩,
          current_state := some (parse_response r) },
        Except.ok (parse_response r)) :=
  process_eq_ok now o rfl

/-- Witness for c1_malformed_response_still_succeeds at the tagless
response "hello". -/
theorem c1_malformed_response_still_succeeds_witness :
    Orchestrator.process_initial_idea (stub_ok ("hello".data)) ("t0".data)
        Orchestrator.init ("idea".data) =
      ({ Orchestrator.init with
          thought_processor :=
            ⟨add_interaction Orchestrator.init.thought_processor.memory ("t0".data)
               ("hello".data),
             (parse_response ("hello".data)).connected_narrative,
             (parse_response ("hello".data)).growth_points⟩,
          current_state := some (parse_response ("hello".data)) },
        Except.ok (parse_response ("hello".data))) :=
  c1_malformed_response_still_succeeds ("hello".data) ("t0".data) ("idea".data)
    Orchestrator.init (by decide)

/-- C2 counterexample: a refinement issued on a fresh orchestrator (state
EMPTY, no prior process call) does not fail with any precondition error: the
remote completion call is issued and its stubbed response is parsed,
returned and stored. -/
theorem c2_counterexample :
    (Orchestrator.refine_content (stub_ok good_response) ("t0".data)
        Orchestrator.init ("x".data)).2 =
      Except.ok ⟨"N".data, "G".data, "C".data⟩ ∧
    (Orchestrator.refine_content (stub_ok good_response) ("t0".data)
        Orchestrator.init ("x".data)).1.current_state =
      some ⟨"N".data, "G".data, "C".data⟩ := by
  exact ⟨by decide, by decide⟩

/-- C2 amended: refine_content in the EMPTY state enforces no precondition.
It issues the remote completion with the refinement prompt built over the
empty current narrative, and whenever that call succeeds the parsed
sections are returned and stored as current_state. -/
theorem c2_refine_without_precondition (m : RemoteModel) (now req response : List Char)
    (hm : m (refinement_prompt [] req) = Except.ok response) :
    Orchestrator.refine_content m now Orchestrator.init req =
      ({ Orchestrator.init with
          thought_processor :=
            ⟨add_interaction ⟨[]⟩ now response,
             (parse_response response).connected_narrative,
             (parse_response response).growth_points⟩,
          current_state := some (parse_response response) },
        Except.ok (parse_response response)) :=
  refine_eq_ok now Orchestrator.init hm

/-- Witness for c2_refine_without_precondition with a constant stub. -/
theorem c2_refine_without_precondition_witness :
    Orchestrator.refine_content (stub_ok good_response) ("t0".data)
        Orchestrator.init ("x".data) =
      ({ Orchestrator.init with
          thought_processor :=
            ⟨add_interaction ⟨[]⟩ ("t0".data) good_response,
             (parse_response good_response).connected_narrative,
             (parse_response good_response).growth_points⟩,
          current_state := some (parse_response good_response) },
        Except.ok (parse_response good_response)) :=
  c2_refine_without_precondition (stub_ok good_response) ("t0".data) ("x".data)
    good_response rfl

/-- C3 counterexample: on a fresh orchestrator a successful refine (which
the code accepts without any process call, and which sets current_state)
makes a subsequent finalize_to_blog succeed, although no process call has
ever succeeded — so "finalize raises if and only if no process has
succeeded" fails in the only-if direction. -/
theorem c3_counterexample :
    (Orchestrator.finalize_to_blog (stub_ok styled_response) ("t1".data)
      (Orchestrator.refine_content (stub_ok good_response) ("t0".data)
        Orchestrator.init ("x".data)).1).2 = Except.ok ("S".data) := by
  decide

/-- C3 amended: finalize_to_blog raises the no-content error if and only if
no process OR refine call has succeeded since the orchestrator's creation
(current_state still absent); and whenever current_state holds sections,
finalize delegates the stored connected_narrative to the Style
Transformer's convert_draft. -/
theorem c3_finalize_iff_no_content_op (mT mS : RemoteModel) (now : List Char)
    (ops : List OrchOp) (o : Orchestrator) (st : ParsedSections)
    (hst : o.current_state = some st) :
    ((Orchestrator.finalize_to_blog mS now
        (runTrace mT mS now Orchestrator.init false ops).1).2 =
          Except.error PipelineError.noContentToFinalize ↔
      (runTrace mT mS now Orchestrator.init false ops).2 = false) ∧
    Orchestrator.finalize_to_blog mS now o =
      ({ o with blog_converter :=
          (convert_draft mS now o.blog_converter st.connected_narrative).1 },
        (convert_draft mS now o.blog_converter st.connected_narrative).2) := by
  constructor
  · rw [finalize_noContent_iff]
    exact runTrace_flag_iff mT mS now ops Orchestrator.init false (by simp [Orchestrator.init])
  · exact finalize_eq_some mS now hst

/-- Witness for c3_finalize_iff_no_content_op on a one-process trace and an
orchestrator already holding sections. -/
theorem c3_finalize_iff_no_content_op_witness :
    ((Orchestrator.finalize_to_blog (stub_ok styled_response) ("t0".data)
        (runTrace (stub_ok good_response) (stub_ok styled_response) ("t0".data)
          Orchestrator.init false [OrchOp.processOp ("hello".data)]).1).2 =
          Except.error PipelineError.noContentToFinalize ↔
      (runTrace (stub_ok good_response) (stub_ok styled_response) ("t0".data)
        Orchestrator.init false [OrchOp.processOp ("hello".data)]).2 = false) ∧
    Orchestrator.finalize_to_blog (stub_ok styled_response) ("t0".data)
        ⟨ThoughtProcessor.init, Draft2Blog.init,
          some ⟨"N".data, "G".data, "C".data⟩⟩ =
      ({ (⟨ThoughtProcessor.init, Draft2Blog.init,
            some ⟨"N".data, "G".data, "C".data⟩⟩ : Orchestrator) with
          blog_converter :=
            (convert_draft (stub_ok styled_response) ("t0".data) Draft2Blog.init
              ("N".data)).1 },
        (convert_draft (stub_ok styled_response) ("t0".data) Draft2Blog.init
          ("N".data)).2) :=
  c3_finalize_iff_no_content_op (stub_ok good_response) (stub_ok styled_response)
    ("t0".data) [OrchOp.processOp ("hello".data)]
    ⟨ThoughtProcessor.init, Draft2Blog.init, some ⟨"N".data, "G".data, "C".data⟩⟩
    ⟨"N".data, "G".data, "C".data⟩ rfl

/-- Witness for c7_process_overwrites: two successive successful process
calls with different stub responses; the final state carries exactly the
second response's sections. -/
theorem c7_process_overwrites_witness :
    (Orchestrator.process_initial_idea (stub_ok good_response) ("t1".data)
        (Orchestrator.process_initial_idea (stub_ok other_response) ("t0".data)
          Orchestrator.init ("a".data)).1 ("b".data)).1.current_state =
      some ⟨"N".data, "G".data, "C".data⟩ ∧
    (Orchestrator.process_initial_idea (stub_ok good_response) ("t1".data)
        (Orchestrator.process_initial_idea (stub_ok other_response) ("t0".data)
          Orchestrator.init ("a".data)).1 ("b".data)).1.thought_processor.current_narrative =
      (⟨"N".data, "G".data, "C".data⟩ : ParsedSections).connected_narrative ∧
    (Orchestrator.process_initial_idea (stub_ok good_response) ("t1".data)
        (Orchestrator.process_initial_idea (stub_ok other_response) ("t0".data)
          Orchestrator.init ("a".data)).1 ("b".data)).1.thought_processor.current_growth_points =
      (⟨"N".data, "G".data, "C".data⟩ : ParsedSections).growth_points :=
  c7_process_overwrites (stub_ok other_response) (stub_ok good_response)
    ("t0".data) ("t1".data) ("a".data) ("b".data) Orchestrator.init
    (Orchestrator.process_initial_idea (stub_ok other_response) ("t0".data)
      Orchestrator.init ("a".data)).1
    (Orchestrator.process_initial_idea (stub_ok good_response) ("t1".data)
        (Orchestrator.process_initial_idea (stub_ok other_response) ("t0".data)
          Orchestrator.init ("a".data)).1 ("b".data)).1
    (parse_response other_response) ⟨"N".data, "G".data, "C".data⟩ rfl rfl

/-- C8: failed refine and convert operations are atomic with respect to
retained state.  Whenever refine_content or convert_draft returns an error
(remote-call failure or extraction failure), the orchestrator — narrative,
growth points, current_state and memory included — respectively the
Draft2Blog state with its session memory, is exactly what it was before the
call. -/
theorem c8_failed_ops_atomic (m m2 : RemoteModel) (now now2 req draft : List Char)
    (o : Orchestrator) (d : Draft2Blog) :
    (∀ e, (Orchestrator.refine_content m now o req).2 = Except.error e →
      (Orchestrator.refine_content m now o req).1 = o) ∧
    (∀ e, (convert_draft m2 now2 d draft).2 = Except.error e →
      (convert_draft m2 now2 d draft).1 = d) := by
  constructor
  · intro e he
    cases hm : m (refinement_prompt o.thought_processor.current_narrative req) with
    | error msg => rw [refine_eq_error now o hm]
    | ok response => rw [refine_eq_ok now o hm] at he; exact absurd he (by simp)
  · intro e he
    cases hm : m2 (wrap_draft draft) with
    | error msg => rw [convert_eq_model_error now2 d hm]
    | ok response =>
        rcases extract_cases response with hx | ⟨styled, hx⟩
        · rw [convert_eq_extract_error now2 d hm hx]
        · rw [convert_eq_ok now2 d hm hx] at he; exact absurd he (by simp)

/-- Witness for c8_failed_ops_atomic: a failing remote model for refine and
a tagless remote response for convert (extraction failure); both leave the
prior state untouched. -/
theorem c8_failed_ops_atomic_witness :
    (Orchestrator.refine_content (stub_err ("down".data)) ("t0".data)
      Orchestrator.init ("x".data)).1 = Orchestrator.init ∧
    (convert_draft (stub_ok ("oops".data)) ("t0".data)
      Draft2Blog.init ("x".data)).1 = Draft2Blog.init :=
  ⟨(c8_failed_ops_atomic (stub_err ("down".data)) (stub_ok ("oops".data))
      ("t0".data) ("t0".data) ("x".data) ("x".data) Orchestrator.init
      Draft2Blog.init).1 (PipelineError.remoteFailure ("down".data)) (by decide),
   (c8_failed_ops_atomic (stub_err ("down".data)) (stub_ok ("oops".data))
      ("t0".data) ("t0".data) ("x".data) ("x".data) Orchestrator.init
      Draft2Blog.init).2 (PipelineError.missingSection
        ("Could not find styled_draft tags in response".data)) (by decide)⟩

/-- C9: end-to-end scenario under stubbed models.  With the remote stub
returning the three-section completion for any process prompt,
process_initial_idea("hello") returns exactly the sections N, G, C; a
subsequent finalize_to_blog against a style stub returning the styled
completion for any input returns exactly S. -/
theorem c9_end_to_end :
    (Orchestrator.process_initial_idea (stub_ok good_response) ("t0".data)
        Orchestrator.init ("hello".data)).2 =
      Except.ok ⟨"N".data, "G".data, "C".data⟩ ∧
    (Orchestrator.finalize_to_blog (stub_ok styled_response) ("t1".data)
        (Orchestrator.process_initial_idea (stub_ok good_response) ("t0".data)
          Orchestrator.init ("hello".data)).1).2 = Except.ok ("S".data) := by
  exact ⟨by decide, by decide⟩

/-- C10: a successful convert whose raw input is not already wrapped
(stripped form does not start with the open draft tag) records the
tag-wrapped string — not the caller's raw input — as the original_draft of
the new history entry; a raw input that already arrives wrapped is recorded
verbatim. -/
theorem c10_history_records_wrapped_draft (m m2 : RemoteModel)
    (now now2 draftU draftW s1 s2 : List Char) (d1 d2 : Draft2Blog)
    (hU : ¬ "<draft>".data <+: pyStrip draftU)
    (hW : "<draft>".data <+: pyStrip draftW)
    (h1 : (convert_draft m now d1 draftU).2 = Except.ok s1)
    (h2 : (convert_draft m2 now2 d2 draftW).2 = Except.ok s2) :
    (convert_draft m now d1 draftU).1.memory.drafts =
      d1.memory.drafts ++ [⟨now, ("<draft>".data ++ draftU) ++ "</draft>".data, s1⟩] ∧
    (convert_draft m2 now2 d2 draftW).1.memory.drafts =
      d2.memory.drafts ++ [⟨now2, draftW, s2⟩] := by
  constructor
  · cases hm : m (wrap_draft draftU) with
    | error msg => rw [convert_eq_model_error now d1 hm] at h1; exact absurd h1 (by simp)
    | ok response =>
        rcases extract_cases response with hx | ⟨styled, hx⟩
        · rw [convert_eq_extract_error now d1 hm hx] at h1; exact absurd h1 (by simp)
        · have hs : styled = s1 := by
            rw [convert_eq_ok now d1 hm hx] at h1
            simpa using h1
          subst hs
          rw [convert_eq_ok now d1 hm hx, wrap_draft_eq_of_unwrapped hU]
          simp [add_draft]
  · cases hm : m2 (wrap_draft draftW) with
    | error msg => rw [convert_eq_model_error now2 d2 hm] at h2; exact absurd h2 (by simp)
    | ok response =>
        rcases extract_cases response with hx | ⟨styled, hx⟩
        · rw [convert_eq_extract_error now2 d2 hm hx] at h2; exact absurd h2 (by simp)
        · have hs : styled = s2 := by
            rw [convert_eq_ok now2 d2 hm hx] at h2
            simpa using h2
          subst hs
          rw [convert_eq_ok now2 d2 hm hx, wrap_draft_eq_of_strip hW]
          simp [add_draft]

/-- Witness for c10_history_records_wrapped_draft: an unwrapped input "x"
is recorded as the wrapped draft, a pre-wrapped input is recorded
verbatim. -/
theorem c10_history_records_wrapped_draft_witness :
    (convert_draft (stub_ok styled_response) ("t0".data)
        Draft2Blog.init ("x".data)).1.memory.drafts =
      Draft2Blog.init.memory.drafts ++
        [⟨"t0".data, ("<draft>".data ++ ("x".data)) ++ "</draft>".data, "S".data⟩] ∧
    (convert_draft (stub_ok styled_response) ("t1".data)
        Draft2Blog.init ("<draft>y</draft>".data)).1.memory.drafts =
      Draft2Blog.init.memory.drafts ++
        [⟨"t1".data, "<draft>y</draft>".data, "S".data⟩] :=
  c10_history_records_wrapped_draft (stub_ok styled_response) (stub_ok styled_response)
    ("t0".data) ("t1".data) ("x".data) ("<draft>y</draft>".data) ("S".data) ("S".data)
    Draft2Blog.init Draft2Blog.init (by decide) (by decide) (by decide) (by decide)
